import Mathlib

/-!
Shallow embedding of `src/segurolluvia_handler.js`, a Sawtooth transaction
handler for a rain-insurance product, together with proofs about its
validation and state-transition behaviour.

Modelling conventions:
* JavaScript runtime values reaching the handler (the CBOR-decoded payload
  fields and the stored state) are modelled by the inductive type `JSVal`.
  Numbers are modelled as integers plus a NaN marker (the handler only ever
  does integer-flavoured arithmetic; non-integral floats play no role in any
  claim settled here).
* The CBOR codec boundary is abstracted as the identity: the state store maps
  addresses directly to decoded JavaScript objects.  A CBOR encoding of an
  object is never the empty byte string, so the source's
  `stateValueRep && stateValueRep.length > 0` test corresponds exactly to
  presence of the address in the store.
* Errors thrown by the handler (`InvalidTransaction`, `InternalError`) and
  TypeErrors raised by calling a method on a value that lacks it are the
  constructors of `ErrMsg`; the source's message strings are mapped
  one-to-one onto constructor names.
* The source file redeclares `let parsed` (line 185 and line 228), which a
  strict JavaScript parser refuses; as the surrounding spec does, we model
  the evident sequential semantics (the second `parsed` rebinding the name).
-/

/-- JavaScript number: an integer, or NaN.  (The handler's arithmetic is
integer-flavoured; `parseInt` and the `+`/`-` coercions used here produce
integers or NaN on every input relevant to the claims.) -/
inductive JSNum where
  | int : Int → JSNum
  | nan : JSNum
deriving Repr

/-- JavaScript runtime value as seen by the handler: `undefined`, `null`,
booleans, numbers, strings, and plain objects (ordered field lists). -/
inductive JSVal where
  | und  : JSVal
  | null : JSVal
  | bool : Bool → JSVal
  | num  : JSNum → JSVal
  | str  : String → JSVal
  | obj  : List (String × JSVal) → JSVal
deriving Repr

/-- JavaScript truthiness: `undefined`, `null`, `false`, `0`, `NaN` and the
empty string are falsy; objects are always truthy. -/
def jsTruthy : JSVal → Bool
  | .und => false
  | .null => false
  | .bool b => b
  | .num (.int n) => n != 0
  | .num .nan => false
  | .str s => s != ""
  | .obj _ => true

/-- `ToString` coercion of a JavaScript value (plain objects stringify to
"[object Object]" through the default `Object.prototype.toString`). -/
def jsToString : JSVal → String
  | .und => "undefined"
  | .null => "null"
  | .bool b => if b then "true" else "false"
  | .num (.int n) => toString n
  | .num .nan => "NaN"
  | .str s => s
  | .obj _ => "[object Object]"

/-- `ToPrimitive` with default hint: plain objects (no custom `valueOf`)
convert via `toString` to "[object Object]"; primitives are unchanged. -/
def jsToPrimitive : JSVal → JSVal
  | .obj _ => .str "[object Object]"
  | v => v

/-- Numeric value of a string under JavaScript `ToNumber`: trimmed empty
string is 0, an optionally signed run of decimal digits is that integer,
anything else is NaN (non-integral numeric literals do not occur in the
inputs relevant to the claims). -/
def strToNum (s : String) : JSNum :=
  let cs := s.data.dropWhile (fun c => c == ' ')
  let cs := cs.reverse.dropWhile (fun c => c == ' ') |>.reverse
  if cs.isEmpty then .int 0
  else
    let (sign, ds) : Int × List Char :=
      match cs with
      | '-' :: rest => (-1, rest)
      | '+' :: rest => (1, rest)
      | _ => (1, cs)
    if ds.isEmpty ∨ ds.any (fun c => !c.isDigit) then .nan
    else .int (sign * (ds.foldl (fun acc c => acc * 10 + (c.toNat - 48)) 0 : Nat))

/-- JavaScript `ToNumber`. -/
def jsToNumber : JSVal → JSNum
  | .und => .nan
  | .null => .int 0
  | .bool b => .int (if b then 1 else 0)
  | .num n => n
  | .str s => strToNum s
  | .obj _ => strToNum "[object Object]"

/-- JavaScript `parseInt` applied to a string: skip leading spaces, read an
optional sign and a leading run of decimal digits; NaN when there is none. -/
def parseIntStr (s : String) : JSNum :=
  let cs := s.data.dropWhile (fun c => c == ' ')
  let (sign, rest) : Int × List Char :=
    match cs with
    | '-' :: r => (-1, r)
    | '+' :: r => (1, r)
    | _ => (1, cs)
  let ds := rest.takeWhile Char.isDigit
  if ds.isEmpty then .nan
  else .int (sign * (ds.foldl (fun acc c => acc * 10 + (c.toNat - 48)) 0 : Nat))

/-- JavaScript `parseInt(v)`: the argument is first converted to a string.
Always produces a number (possibly NaN), never a string. -/
def parseIntVal (v : JSVal) : JSNum :=
  parseIntStr (jsToString v)

/-- Strict equality `===`.  NaN is not strictly equal to anything, values of
different types are never strictly equal, and object identity is modelled as
never-equal (the one use site compares a freshly produced number against the
payload value, so the object arm is never exercised). -/
def jsStrictEq : JSVal → JSVal → Bool
  | .und, .und => true
  | .null, .null => true
  | .bool a, .bool b => a == b
  | .num (.int a), .num (.int b) => a == b
  | .str a, .str b => a == b
  | _, _ => false

/-- Loose equality's preliminary boolean coercion: a boolean operand is sent
through `ToNumber` before the comparison proper. -/
def jsDeBool : JSVal → JSVal
  | .bool b => .num (.int (if b then 1 else 0))
  | v => v

/-- Loose equality `==` on already-primitive, already-de-booleaned values. -/
def jsLooseEqPrim : JSVal → JSVal → Bool
  | .und, .und => true
  | .und, .null => true
  | .null, .und => true
  | .null, .null => true
  | .num (.int a), .num (.int b) => a == b
  | .num _, .num _ => false
  | .str a, .str b => a == b
  | .num a, .str s =>
      match a, strToNum s with
      | .int x, .int y => x == y
      | _, _ => false
  | .str s, .num a =>
      match strToNum s, a with
      | .int x, .int y => x == y
      | _, _ => false
  | _, _ => false

/-- Loose equality `==`: objects are sent through `ToPrimitive` first
(object identity against another object is not modelled; no use site in this
file compares two objects loosely). -/
def jsLooseEq (a b : JSVal) : Bool :=
  jsLooseEqPrim (jsDeBool (jsToPrimitive a)) (jsDeBool (jsToPrimitive b))

/-- Reading the `length` property: strings expose their character count,
plain objects expose a `length` field when one exists, every other value
(in particular every number) yields `undefined`. -/
def jsGetLength : JSVal → JSVal
  | .str s => .num (.int s.length)
  | .obj fs => (fs.lookup "length").getD .und
  | _ => .und

/-- The relational comparison `v > k` against an integer constant:
`ToNumber` the left operand, NaN compares false. -/
def jsGtInt (v : JSVal) (k : Int) : Bool :=
  match jsToNumber v with
  | .nan => false
  | .int n => n > k

/-- The relational comparison `v < k` against an integer constant. -/
def jsLtInt (v : JSVal) (k : Int) : Bool :=
  match jsToNumber v with
  | .nan => false
  | .int n => n < k

/-- Addition on JavaScript numbers (NaN absorbs). -/
def numAdd : JSNum → JSNum → JSNum
  | .int a, .int b => .int (a + b)
  | _, _ => .nan

/-- Subtraction on JavaScript numbers (NaN absorbs). -/
def numSub : JSNum → JSNum → JSNum
  | .int a, .int b => .int (a - b)
  | _, _ => .nan

/-- JavaScript `+`: after `ToPrimitive`, if either operand is a string the
result is string concatenation, otherwise numeric addition. -/
def jsAdd (a b : JSVal) : JSVal :=
  match jsToPrimitive a, jsToPrimitive b with
  | .str s, p => .str (s ++ jsToString p)
  | p, .str s => .str (jsToString p ++ s)
  | p, q => .num (numAdd (jsToNumber p) (jsToNumber q))

/-- JavaScript `-`: both operands through `ToNumber`. -/
def jsSub (a b : JSVal) : JSVal :=
  .num (numSub (jsToNumber a) (jsToNumber b))

/-- `v === null || v === undefined`, the presence test the handler uses for
`bankAccount`, `days`, `refund`, `purchase` and `total`. -/
def isNullOrUndef : JSVal → Bool
  | .null => true
  | .und => true
  | _ => false

/-! ### SHA-512 and the address deriver

The source computes `_hash = sha512 hex lowercase`,
`TP_NAMESPACE = _hash('segurolluvia').substring(0, 6)` and
`address = TP_NAMESPACE + _hash(purchase).slice(-64)`.  We embed SHA-512
concretely over `Nat` with explicit reduction modulo `2 ^ 64`. -/

/-- Reduce to a 64-bit word. -/
def w64 (n : Nat) : Nat := n % 18446744073709551616

/-- Right rotation of a 64-bit word by `n` places. -/
def rotr64 (n x : Nat) : Nat := w64 ((x >>> n) ||| (x <<< (64 - n)))

/-- Bitwise complement of a 64-bit word. -/
def not64 (x : Nat) : Nat := x ^^^ 18446744073709551615

/-- SHA-512 choice function. -/
def shaCh (x y z : Nat) : Nat := (x &&& y) ^^^ (not64 x &&& z)

/-- SHA-512 majority function. -/
def shaMaj (x y z : Nat) : Nat := (x &&& y) ^^^ (x &&& z) ^^^ (y &&& z)

/-- SHA-512 Σ₀. -/
def shaS0 (x : Nat) : Nat := rotr64 28 x ^^^ rotr64 34 x ^^^ rotr64 39 x

/-- SHA-512 Σ₁. -/
def shaS1 (x : Nat) : Nat := rotr64 14 x ^^^ rotr64 18 x ^^^ rotr64 41 x

/-- SHA-512 σ₀. -/
def shaLS0 (x : Nat) : Nat := rotr64 1 x ^^^ rotr64 8 x ^^^ (x >>> 7)

/-- SHA-512 σ₁. -/
def shaLS1 (x : Nat) : Nat := rotr64 19 x ^^^ rotr64 61 x ^^^ (x >>> 6)

/-- Largest `x` with `x ^ 3 <= n`, by fuelled binary search (the invariant
is `lo ^ 3 <= n < hi ^ 3`). -/
def icbrtGo (n : Nat) : Nat → Nat → Nat → Nat
  | 0, lo, _ => lo
  | fuel + 1, lo, hi =>
      if hi ≤ lo + 1 then lo
      else
        let mid := (lo + hi) / 2
        if mid ^ 3 ≤ n then icbrtGo n fuel mid hi else icbrtGo n fuel lo mid

/-- Integer cube root. -/
def icbrt (n : Nat) : Nat := icbrtGo n 256 0 (n + 1)

/-- The first 80 primes, whose cube roots generate the SHA-512 round
constants. -/
def shaPrimes : List Nat :=
  [2, 3, 5, 7, 11, 13, 17, 19, 23, 29, 31, 37, 41, 43, 47, 53, 59, 61, 67,
   71, 73, 79, 83, 89, 97, 101, 103, 107, 109, 113, 127, 131, 137, 139, 149,
   151, 157, 163, 167, 173, 179, 181, 191, 193, 197, 199, 211, 223, 227,
   229, 233, 239, 241, 251, 257, 263, 269, 271, 277, 281, 283, 293, 307,
   311, 313, 317, 331, 337, 347, 349, 353, 359, 367, 373, 379, 383, 389,
   397, 401, 409]

/-- The 80 SHA-512 round constants: the first 64 bits of the fractional
parts of the cube roots of the first 80 primes. -/
def shaK : List Nat :=
  shaPrimes.map (fun p => icbrt (p <<< 192) % 18446744073709551616)

/-- The first 64 bits of the fractional part of the square root of a
number. -/
def sqrtFrac64 (p : Nat) : Nat :=
  Nat.sqrt (p <<< 128) % 18446744073709551616

/-- An SHA-512 chaining state: eight 64-bit words. -/
structure Sha8 where
  a : Nat
  b : Nat
  c : Nat
  d : Nat
  e : Nat
  f : Nat
  g : Nat
  h : Nat

/-- SHA-512 initial chaining value: the first 64 bits of the fractional
parts of the square roots of the first 8 primes. -/
def shaH0 : Sha8 :=
  ⟨sqrtFrac64 2, sqrtFrac64 3, sqrtFrac64 5, sqrtFrac64 7,
   sqrtFrac64 11, sqrtFrac64 13, sqrtFrac64 17, sqrtFrac64 19⟩

/-- UTF-8 encoding of one character, as a list of byte values. -/
def utf8Char (c : Char) : List Nat :=
  let n := c.toNat
  if n < 0x80 then [n]
  else if n < 0x800 then
    [0xC0 ||| (n >>> 6), 0x80 ||| (n &&& 0x3F)]
  else if n < 0x10000 then
    [0xE0 ||| (n >>> 12), 0x80 ||| ((n >>> 6) &&& 0x3F), 0x80 ||| (n &&& 0x3F)]
  else
    [0xF0 ||| (n >>> 18), 0x80 ||| ((n >>> 12) &&& 0x3F),
     0x80 ||| ((n >>> 6) &&& 0x3F), 0x80 ||| (n &&& 0x3F)]

/-- UTF-8 bytes of a string (Node's `crypto.update` encodes string input as
UTF-8). -/
def utf8Bytes (s : String) : List Nat :=
  (s.data.map utf8Char).join

/-- SHA-512 message padding: `0x80`, zeros to 112 mod 128, then the bit
length as a 16-byte big-endian integer. -/
def shaPad (msg : List Nat) : List Nat :=
  let padZeros := (128 - (msg.length + 17) % 128) % 128
  msg ++ [0x80] ++ List.replicate padZeros 0 ++
    (List.range 16).map (fun i => (msg.length * 8) / 256 ^ (15 - i) % 256)

/-- Split a byte list into 128-byte blocks. -/
def shaBlocks (bs : List Nat) : List (List Nat) :=
  if bs.isEmpty then []
  else bs.take 128 :: shaBlocks (bs.drop 128)
termination_by bs.length
decreasing_by
  simp only [List.length_drop]
  cases bs with
  | nil => simp_all
  | cons x xs => simp; omega

/-- Big-endian 64-bit word from eight bytes. -/
def bytesToWord (bs : List Nat) : Nat :=
  bs.foldl (fun acc b => acc * 256 + b) 0

/-- The sixteen 64-bit words of one block. -/
def blockWords (block : List Nat) : List Nat :=
  (List.range 16).map (fun i => bytesToWord ((block.drop (8 * i)).take 8))

/-- Extend the sixteen block words by `n` schedule words. -/
def shaSchedule : Nat → List Nat → List Nat
  | 0, ws => ws
  | n + 1, ws =>
      let t := ws.length
      shaSchedule n (ws ++ [w64 (shaLS1 (ws.getD (t - 2) 0) + ws.getD (t - 7) 0 +
        shaLS0 (ws.getD (t - 15) 0) + ws.getD (t - 16) 0)])

/-- One SHA-512 round. -/
def shaRound (st : Sha8) (kw : Nat × Nat) : Sha8 :=
  let t1 := w64 (st.h + shaS1 st.e + shaCh st.e st.f st.g + kw.1 + kw.2)
  let t2 := w64 (shaS0 st.a + shaMaj st.a st.b st.c)
  ⟨w64 (t1 + t2), st.a, st.b, st.c, w64 (st.d + t1), st.e, st.f, st.g⟩

/-- SHA-512 compression of one 128-byte block into the chaining state. -/
def shaCompress (st : Sha8) (block : List Nat) : Sha8 :=
  let ws := shaSchedule 64 (blockWords block)
  let r := (shaK.zip ws).foldl shaRound st
  ⟨w64 (st.a + r.a), w64 (st.b + r.b), w64 (st.c + r.c), w64 (st.d + r.d),
   w64 (st.e + r.e), w64 (st.f + r.f), w64 (st.g + r.g), w64 (st.h + r.h)⟩

/-- SHA-512 of a byte list. -/
def sha512 (msg : List Nat) : Sha8 :=
  (shaBlocks (shaPad msg)).foldl shaCompress shaH0

/-- The eight digest words as a list. -/
def sha8List (st : Sha8) : List Nat :=
  [st.a, st.b, st.c, st.d, st.e, st.f, st.g, st.h]

/-- Lowercase hexadecimal digit. -/
def hexDigit (n : Nat) : Char :=
  if n < 10 then Char.ofNat (48 + n) else Char.ofNat (87 + n)

/-- A 64-bit word as sixteen lowercase hexadecimal characters. -/
def word64Hex (x : Nat) : List Char :=
  (List.range 16).map (fun i => hexDigit (x / 16 ^ (15 - i) % 16))

/-- `_hash(x)`: the lowercase hexadecimal SHA-512 digest of a string, as a
character list (`crypto.createHash('sha512').update(x).digest('hex')`). -/
def hashHexList (s : String) : List Char :=
  ((sha8List (sha512 (utf8Bytes s))).map word64Hex).join

/-- `_hash` as a string. -/
def hashHex (s : String) : String :=
  String.mk (hashHexList s)

/-- `TP_FAMILY = 'segurolluvia'`. -/
def TP_FAMILY : String := "segurolluvia"

/-- `TP_NAMESPACE = _hash(TP_FAMILY).substring(0, 6)`. -/
def TP_NAMESPACE : String := String.mk ((hashHexList TP_FAMILY).take 6)

/-- `slice(-64)`: the final 64 characters of a string. -/
def sliceLast64 (s : String) : String :=
  String.mk (s.data.drop (s.data.length - 64))

/-- The address deriver, source line 281:
`TP_NAMESPACE + _hash(purchase).slice(-64)`. -/
def deriveAddress (purchase : String) : String :=
  TP_NAMESPACE ++ sliceLast64 (hashHex purchase)

/-! ### The handler: errors, payload, validation, transitions -/

/-- The errors the handler can raise.  The `InvalidTransaction` messages of
the source are mapped one-to-one onto constructors; `stateError` is the
`InternalError('State error!')` of the final write check; `typeErr` models a
JavaScript TypeError raised by invoking a method on a value that lacks it
(e.g. `mail.indexOf` when `Mail` is a truthy non-string). -/
inductive ErrMsg where
  | verbRequired : ErrMsg
  | nameRequired : ErrMsg
  | nameTooLong : ErrMsg
  | mailRequired : ErrMsg
  | mailContainsAt : ErrMsg
  | bankAccountRequired : ErrMsg
  | bankAccountFormat : ErrMsg
  | placeAddressRequired : ErrMsg
  | townRequired : ErrMsg
  | provinceRequired : ErrMsg
  | checkinDateRequired : ErrMsg
  | checkoutDateRequired : ErrMsg
  | daysRequired : ErrMsg
  | rainAmountRequired : ErrMsg
  | startHourRequired : ErrMsg
  | endHourRequired : ErrMsg
  | refundRequired : ErrMsg
  | purchaseRequired : ErrMsg
  | totalRequired : ErrMsg
  | unrecognizedVerb : JSVal → ErrMsg
  | alreadyInState : String → ErrMsg
  | notInState : String → ErrMsg
  | resultBelowMin : String → ErrMsg
  | resultAboveMax : String → ErrMsg
  | stateError : ErrMsg
  | typeErr : ErrMsg
deriving Repr

/-- The decoded transaction payload.  Property access on a JavaScript object
yields `undefined` for an absent key, so an absent field is `JSVal.und`. -/
structure Update where
  Verb : JSVal := .und
  Name : JSVal := .und
  Mail : JSVal := .und
  BankAccount : JSVal := .und
  PlaceAddress : JSVal := .und
  Town : JSVal := .und
  Province : JSVal := .und
  CheckinDate : JSVal := .und
  CheckoutDate : JSVal := .und
  Days : JSVal := .und
  RainAmount : JSVal := .und
  StartHour : JSVal := .und
  EndHour : JSVal := .und
  Refund : JSVal := .und
  Purchase : JSVal := .und
  Total : JSVal := .und

/-- The validated field set bound by `apply` before dispatch (after the
reassignments `bankAccount = parsed` and `days = parsed`). -/
structure Fields where
  verb : JSVal
  name : JSVal
  mail : JSVal
  bankAccount : JSVal
  placeAddress : JSVal
  town : JSVal
  province : JSVal
  checkinDate : JSVal
  checkoutDate : JSVal
  days : JSVal
  rainAmount : JSVal
  startHour : JSVal
  endHour : JSVal
  refund : JSVal
  purchase : JSVal
  total : JSVal

/-- `mail.indexOf('@')`: defined on strings (index of the first `@`, or -1);
calling `.indexOf` on a truthy non-string value raises a TypeError. -/
def jsIndexOfAt : JSVal → Except ErrMsg Int
  | .str s =>
      match s.data.findIdx? (fun c => c == '@') with
      | some i => .ok (i : Int)
      | none => .ok (-1)
  | _ => .error .typeErr

/-- Source lines 170-178: the mail validation.  Rejects a missing mail, and
rejects with `Mail must contain @ character` exactly when `indexOf('@') > -1`
— i.e. when the mail DOES contain an `@`. -/
def mailCheck (mail : JSVal) : Except ErrMsg Unit :=
  if jsTruthy mail = false then .error .mailRequired
  else
    match jsIndexOfAt mail with
    | .error e => .error e
    | .ok idx => if idx > -1 then .error .mailContainsAt else .ok ()

/-- Source lines 181-191: the bankAccount validation.
`parsed = parseInt(bankAccount)` is a number, a number has no `length`
property, so `parsed.length != MAX_BANK_ACCOUNT_LENGTH` compares `undefined`
with 16 and is always true. -/
def bankAccountCheck (bankAccount : JSVal) : Except ErrMsg JSNum :=
  if isNullOrUndef bankAccount then .error .bankAccountRequired
  else
    let parsed := parseIntVal bankAccount
    if (!jsStrictEq (.num parsed) bankAccount) ||
       (!jsLooseEq (jsGetLength (.num parsed)) (.num (.int 16))) then
      .error .bankAccountFormat
    else .ok parsed

/-- Source lines 150-266: the field validation chain of `apply`, in source
order, failing on the first violated check. -/
def validate (u : Update) : Except ErrMsg Fields :=
  if jsTruthy u.Verb = false then .error .verbRequired
  else if jsTruthy u.Name = false then .error .nameRequired
  else if jsGtInt (jsGetLength u.Name) 20 then .error .nameTooLong
  else
    match mailCheck u.Mail with
    | .error e => .error e
    | .ok _ =>
      match bankAccountCheck u.BankAccount with
      | .error e => .error e
      | .ok parsed =>
        if jsTruthy u.PlaceAddress = false then .error .placeAddressRequired
        else if jsTruthy u.Town = false then .error .townRequired
        else if jsTruthy u.Province = false then .error .provinceRequired
        else if jsTruthy u.CheckinDate = false then .error .checkinDateRequired
        else if jsTruthy u.CheckoutDate = false then .error .checkoutDateRequired
        else if isNullOrUndef u.Days then .error .daysRequired
        else if jsTruthy u.RainAmount = false then .error .rainAmountRequired
        else if jsTruthy u.StartHour = false then .error .startHourRequired
        else if jsTruthy u.EndHour = false then .error .endHourRequired
        else if isNullOrUndef u.Refund then .error .refundRequired
        else if isNullOrUndef u.Purchase then .error .purchaseRequired
        else if isNullOrUndef u.Total then .error .totalRequired
        else .ok {
          verb := u.Verb, name := u.Name, mail := u.Mail,
          bankAccount := .num parsed,
          placeAddress := u.PlaceAddress, town := u.Town,
          province := u.Province, checkinDate := u.CheckinDate,
          checkoutDate := u.CheckoutDate, days := .num (parseIntVal u.Days),
          rainAmount := u.RainAmount, startHour := u.StartHour,
          endHour := u.EndHour, refund := u.Refund,
          purchase := u.Purchase, total := u.Total }

/-- A stored JavaScript object: an ordered association list. -/
abbrev JSObj := List (String × JSVal)

/-- The state visible at the queried addresses (`possibleAddressValues`),
with the CBOR codec abstracted away: an address maps to the decoded object,
or is absent. -/
abbrev Store := List (String × JSObj)

/-- Property read `o[k]` on an object: `undefined` when absent. -/
def objGet (o : JSObj) (k : String) : JSVal :=
  (o.lookup k).getD .und

/-- Assignment `o[k] = v` on an association list: the first occurrence of
the key is replaced in place, a fresh key is appended (JavaScript objects
update an existing property in place and append new ones in insertion
order). -/
def setAssoc {α : Type} : List (String × α) → String → α → List (String × α)
  | [], k, v => [(k, v)]
  | (k', v') :: rest, k, v =>
      if k' = k then (k, v) :: rest else (k', v') :: setAssoc rest k v

/-- Property write `o[k] = v`. -/
def objSet (o : JSObj) (k : String) (v : JSVal) : JSObj :=
  setAssoc o k v

/-- `possibleAddressValues[address]`. -/
def storeGet (s : Store) (addr : String) : Option JSObj :=
  s.lookup addr

/-- `_setEntry`: write the (re-encoded) object at the address and report the
list of addresses written, as `context.setState` does. -/
def storeSet (s : Store) (addr : String) (o : JSObj) : Store :=
  setAssoc s addr o

/-- The `PurchaseEntry` object literal of source lines 78-79:
`{name, mail, bankAccount, placeAddress, town, province, checkinDate,
checkoutDate, days, rainAmount, startHour, endHour, refund, total}`. -/
def mkEntry (name mail bankAccount placeAddress town province checkinDate
    checkoutDate days rainAmount startHour endHour refund total : JSVal) :
    JSVal :=
  .obj [("name", name), ("mail", mail), ("bankAccount", bankAccount),
        ("placeAddress", placeAddress), ("town", town), ("province", province),
        ("checkinDate", checkinDate), ("checkoutDate", checkoutDate),
        ("days", days), ("rainAmount", rainAmount), ("startHour", startHour),
        ("endHour", endHour), ("refund", refund), ("total", total)]

/-- `_applySet` (source lines 55-82): the "buy" transition.  The stored
object is keyed by `purchase` (coerced to a property key); an existing
truthy entry for the same purchase id rejects with "already in state". -/
def applySet (address : String) (name mail bankAccount placeAddress town
    province checkinDate checkoutDate days rainAmount startHour endHour
    refund purchase total : JSVal) (possibleAddressValues : Store) :
    Except ErrMsg (Store × List String) :=
  match storeGet possibleAddressValues address with
  | some stateValue =>
      if jsTruthy (objGet stateValue (jsToString purchase)) then
        .error (.alreadyInState (jsToString purchase))
      else
        .ok (storeSet possibleAddressValues address
          (objSet stateValue (jsToString purchase)
            (mkEntry name mail bankAccount placeAddress town province
              checkinDate checkoutDate days rainAmount startHour endHour
              refund total)), [address])
  | none =>
      .ok (storeSet possibleAddressValues address
        (objSet [] (jsToString purchase)
          (mkEntry name mail bankAccount placeAddress town province
            checkinDate checkoutDate days rainAmount startHour endHour
            refund total)), [address])

/-- `MIN_VALUE`. -/
def MIN_VALUE : Int := 0

/-- `MAX_VALUE`. -/
def MAX_VALUE : Int := 4294967295

/-- `_applyOperator` (source lines 84-113): the generic increment/decrement
transition.  Note that it reads and writes `stateValue[name]` — the key is
the `name` argument, and the delta is the `value` argument. -/
def applyOperator (verb : String) (op : JSVal → JSVal → JSVal)
    (address : String) (name value : JSVal) (possibleAddressValues : Store) :
    Except ErrMsg (Store × List String) :=
  match storeGet possibleAddressValues address with
  | none => .error (.notInState verb)
  | some stateValue =>
      if isNullOrUndef (objGet stateValue (jsToString name)) then
        .error (.notInState verb)
      else if jsLtInt (op (objGet stateValue (jsToString name)) value) MIN_VALUE then
        .error (.resultBelowMin verb)
      else if jsGtInt (op (objGet stateValue (jsToString name)) value) MAX_VALUE then
        .error (.resultAboveMax verb)
      else
        .ok (storeSet possibleAddressValues address
          (objSet stateValue (jsToString name)
            (op (objGet stateValue (jsToString name)) value)), [address])

/-- `_applyInc = _applyOperator('inc', (x, y) => x + y)`. -/
def applyInc (address : String) (name value : JSVal) (s : Store) :
    Except ErrMsg (Store × List String) :=
  applyOperator "inc" jsAdd address name value s

/-- `_applyDec = _applyOperator('dec', (x, y) => x - y)`. -/
def applyDec (address : String) (name value : JSVal) (s : Store) :
    Except ErrMsg (Store × List String) :=
  applyOperator "dec" jsSub address name value s

/-- The three actions `apply` dispatches to. -/
inductive TxAction where
  | set : TxAction
  | dec : TxAction
  | inc : TxAction

/-- Source lines 270-279: verb dispatch by strict string comparison, after
all field checks; any other verb raises the unrecognized-verb rejection. -/
def dispatchVerb (verb : JSVal) : Except ErrMsg TxAction :=
  if jsStrictEq verb (.str "buy") then .ok .set
  else if jsStrictEq verb (.str "calculate") then .ok .dec
  else if jsStrictEq verb (.str "getData") then .ok .inc
  else .error (.unrecognizedVerb verb)

/-- Source lines 287-292: the chosen action applied to the fetched state.
The JavaScript call site passes `(context, address, name, mail, bankAccount,
…)` to every action; `_applyDec` and `_applyInc` declare only
`(context, address, name, value)`, so their lookup key is the `name` field
and their delta is the `mail` field, the remaining arguments being ignored. -/
def runAction : TxAction → String → Fields → Store →
    Except ErrMsg (Store × List String)
  | .set, addr, f, s =>
      applySet addr f.name f.mail f.bankAccount f.placeAddress f.town
        f.province f.checkinDate f.checkoutDate f.days f.rainAmount
        f.startHour f.endHour f.refund f.purchase f.total s
  | .dec, addr, f, s => applyDec addr f.name f.mail s
  | .inc, addr, f, s => applyInc addr f.name f.mail s

/-- The full `apply` pipeline on an already-decoded payload: validation,
verb dispatch, address derivation (`_hash(purchase)` requires a string;
`crypto`'s `update` raises a TypeError on a number), state fetch, transition,
and the final `addresses.length === 0` internal-error check. -/
def applyTx (possibleAddressValues : Store) (u : Update) :
    Except ErrMsg (Store × List String) :=
  match validate u with
  | .error e => .error e
  | .ok f =>
    match dispatchVerb f.verb with
    | .error e => .error e
    | .ok action =>
      match f.purchase with
      | .str p =>
          (match runAction action (deriveAddress p) f possibleAddressValues with
           | .error e => .error e
           | .ok (s, addrs) =>
               if addrs.length = 0 then .error .stateError else .ok (s, addrs))
      | _ => .error .typeErr

/-- The `refund` field of a stored purchase entry (`undefined` when the
stored value is not an object, as after an operator write). -/
def entryRefund : JSVal → JSVal
  | .obj fs => objGet fs "refund"
  | _ => .und

/-- A concrete purchase entry with refund 100, exactly as a "buy" for
purchase id "P1" stores it. -/
def entryP1 : JSVal :=
  mkEntry (.str "Ana Gomez") (.str "ana.gomez") (.num (.int 1234567890123456))
    (.str "Calle Mayor 1") (.str "Soria") (.str "Soria") (.str "2020-07-01")
    (.str "2020-07-08") (.num (.int 7)) (.str "fuerte") (.str "08:00")
    (.str "20:00") (.num (.int 100)) (.num (.int 500))

/-- A store holding `entryP1` under purchase id "P1" at address "a". -/
def storeP1 : Store := [("a", [("P1", entryP1)])]

/-! ### Helper lemmas -/

/-- Reading back a just-assigned key of an association list. -/
theorem lookup_setAssoc_self {α : Type} (k : String) (v : α) :
    ∀ (o : List (String × α)), (setAssoc o k v).lookup k = some v := by
  intro o
  induction o with
  | nil => simp [setAssoc, List.lookup]
  | cons p o ih =>
      obtain ⟨k', v'⟩ := p
      by_cases hk : k' = k
      · simp [setAssoc, hk, List.lookup]
      · have hne : (k == k') = false := by
          simp only [beq_eq_false_iff_ne]
          exact fun hkk => hk hkk.symm
        simp only [setAssoc, if_neg hk, List.lookup, hne]
        exact ih

/-- Reading back a just-written property. -/
theorem objGet_objSet_self (o : JSObj) (k : String) (v : JSVal) :
    objGet (objSet o k v) k = v := by
  unfold objGet objSet
  rw [lookup_setAssoc_self]
  rfl

/-- Reading back a just-written address. -/
theorem storeGet_storeSet_self (s : Store) (addr : String) (o : JSObj) :
    storeGet (storeSet s addr o) addr = some o := by
  unfold storeGet storeSet
  exact lookup_setAssoc_self addr o s

/-- `mail.indexOf('@')` either raises a TypeError or returns an index. -/
theorem jsIndexOfAt_cases (m : JSVal) :
    jsIndexOfAt m = .error .typeErr ∨ ∃ i, jsIndexOfAt m = .ok i := by
  cases m with
  | str s =>
      right
      cases h : s.data.findIdx? (fun c => c == '@') with
      | none => exact ⟨-1, by simp [jsIndexOfAt, h]⟩
      | some i => exact ⟨i, by simp [jsIndexOfAt, h]⟩
  | und => exact Or.inl rfl
  | null => exact Or.inl rfl
  | bool b => exact Or.inl rfl
  | num n => exact Or.inl rfl
  | obj fs => exact Or.inl rfl

/-- The mail validation ends in one of exactly four ways. -/
theorem mailCheck_cases (m : JSVal) :
    mailCheck m = .error .mailRequired ∨ mailCheck m = .error .typeErr ∨
    mailCheck m = .error .mailContainsAt ∨ mailCheck m = .ok () := by
  unfold mailCheck
  split
  · exact Or.inl rfl
  · rcases jsIndexOfAt_cases m with h | ⟨i, h⟩
    · rw [h]
      exact Or.inr (Or.inl rfl)
    · rw [h]
      by_cases hi : i > -1
      · refine Or.inr (Or.inr (Or.inl ?_))
        show (if i > -1 then Except.error ErrMsg.mailContainsAt
          else Except.ok ()) = Except.error ErrMsg.mailContainsAt
        exact if_pos hi
      · refine Or.inr (Or.inr (Or.inr ?_))
        show (if i > -1 then Except.error ErrMsg.mailContainsAt
          else Except.ok ()) = Except.ok ()
        exact if_neg hi

/-- The bankAccount validation always fails: `parseInt` returns a number, a
number's `length` property is `undefined`, and `undefined != 16` holds, so
the disjunction on source line 186 is true for every payload value. -/
theorem bankAccountCheck_err (v : JSVal) :
    bankAccountCheck v = .error .bankAccountRequired ∨
    bankAccountCheck v = .error .bankAccountFormat := by
  unfold bankAccountCheck
  split
  · exact Or.inl rfl
  · right
    have hl : (!jsLooseEq (jsGetLength (JSVal.num (parseIntVal v)))
        (JSVal.num (JSNum.int 16))) = true := rfl
    have h2 : ((!jsStrictEq (JSVal.num (parseIntVal v)) v) ||
        (!jsLooseEq (jsGetLength (JSVal.num (parseIntVal v)))
          (JSVal.num (JSNum.int 16)))) = true := by
      rw [hl, Bool.or_true]
    show (if ((!jsStrictEq (JSVal.num (parseIntVal v)) v) ||
        (!jsLooseEq (jsGetLength (JSVal.num (parseIntVal v)))
          (JSVal.num (JSNum.int 16)))) = true then
        Except.error ErrMsg.bankAccountFormat
      else Except.ok (parseIntVal v)) = Except.error ErrMsg.bankAccountFormat
    exact if_pos h2

/-- Validation rejects every payload, with an error that is never the
unrecognized-verb error (that error is only raised by the later verb
dispatch, which is never reached). -/
theorem validate_err (u : Update) :
    ∃ e, validate u = .error e ∧ ∀ v, e ≠ ErrMsg.unrecognizedVerb v := by
  unfold validate
  by_cases h1 : jsTruthy u.Verb = false
  · rw [if_pos h1]
    exact ⟨_, rfl, fun _ h => nomatch h⟩
  · rw [if_neg h1]
    by_cases h2 : jsTruthy u.Name = false
    · rw [if_pos h2]
      exact ⟨_, rfl, fun _ h => nomatch h⟩
    · rw [if_neg h2]
      by_cases h3 : jsGtInt (jsGetLength u.Name) 20 = true
      · rw [if_pos h3]
        exact ⟨_, rfl, fun _ h => nomatch h⟩
      · rw [if_neg h3]
        rcases mailCheck_cases u.Mail with h | h | h | h <;> rw [h]
        · exact ⟨_, rfl, fun _ hh => nomatch hh⟩
        · exact ⟨_, rfl, fun _ hh => nomatch hh⟩
        · exact ⟨_, rfl, fun _ hh => nomatch hh⟩
        · rcases bankAccountCheck_err u.BankAccount with h4 | h4 <;> rw [h4]
          · exact ⟨_, rfl, fun _ hh => nomatch hh⟩
          · exact ⟨_, rfl, fun _ hh => nomatch hh⟩

/-- A "buy" against a state whose object holds no truthy entry for the
purchase id succeeds and writes the new entry into the object at the derived
address (the absent-address case inserts into a fresh empty object). -/
theorem applySet_fresh (pav : Store) (address : String)
    (name mail bankAccount placeAddress town province checkinDate
     checkoutDate days rainAmount startHour endHour refund purchase total :
       JSVal)
    (h : jsTruthy (objGet ((storeGet pav address).getD [])
          (jsToString purchase)) = false) :
    applySet address name mail bankAccount placeAddress town province
      checkinDate checkoutDate days rainAmount startHour endHour refund
      purchase total pav =
    .ok (storeSet pav address
      (objSet ((storeGet pav address).getD []) (jsToString purchase)
        (mkEntry name mail bankAccount placeAddress town province checkinDate
          checkoutDate days rainAmount startHour endHour refund total)),
      [address]) := by
  unfold applySet
  cases hs : storeGet pav address with
  | none => rfl
  | some sv =>
      rw [hs] at h
      simp only [Option.getD_some] at h
      simp only [Option.getD_some]
      rw [if_neg (by simp [h])]

/-- Each digest word renders as exactly sixteen hexadecimal characters. -/
theorem word64Hex_length (x : Nat) : (word64Hex x).length = 16 := by
  simp [word64Hex]

/-- The hexadecimal SHA-512 digest of any string has exactly 128
characters. -/
theorem hashHexList_length (s : String) : (hashHexList s).length = 128 := by
  simp [hashHexList, sha8List, word64Hex_length]

/-! ### Claim theorems -/

/-- C1: For every decoded payload, `apply` terminates in a rejection before
reaching the state transition: the bankAccount validation
`parsed !== bankAccount || parsed.length != MAX_BANK_ACCOUNT_LENGTH` is
satisfiable by no value, hence validation rejects every payload, no buy,
calculate or getData transaction is ever accepted, and the state is never
written. -/
theorem applyTx_always_rejects :
    (∀ v : JSVal, ∃ e, bankAccountCheck v = Except.error e) ∧
    ∀ (pav : Store) (u : Update), ∃ e, applyTx pav u = Except.error e := by
  constructor
  · intro v
    rcases bankAccountCheck_err v with h | h
    · exact ⟨_, h⟩
    · exact ⟨_, h⟩
  · intro pav u
    rcases validate_err u with ⟨e, he, _⟩
    refine ⟨e, ?_⟩
    unfold applyTx
    rw [he]

/-- C2: The source's mail check is inverted: it rejects the mail
"a@x.com", which contains an "@", with the error whose message reads
"Mail must contain @ character", and it accepts the mail "ax.com", which
lacks one.  The claim (accept iff "@" present) describes the evident intent,
not the code. -/
theorem mailCheck_inverted :
    mailCheck (JSVal.str "a@x.com") = Except.error ErrMsg.mailContainsAt ∧
    mailCheck (JSVal.str "ax.com") = Except.ok () :=
  ⟨rfl, rfl⟩

/-- C9: The bankAccount validation rejects every value — including the
present 16-digit integer 1234567890123456 that the claim says must be
accepted — and the rejection is always one of the two `InvalidTransaction`
errors, never an internal fault. -/
theorem bankAccountCheck_rejects_every_value :
    bankAccountCheck (JSVal.num (JSNum.int 1234567890123456)) =
      Except.error ErrMsg.bankAccountFormat ∧
    ∀ v : JSVal, bankAccountCheck v = Except.error ErrMsg.bankAccountRequired ∨
      bankAccountCheck v = Except.error ErrMsg.bankAccountFormat := by
  refine ⟨?_, bankAccountCheck_err⟩
  rfl

/-- C3: The "calculate" transition does not operate on the purchase id's
entry: `_applyDec` looks up the state object under the `name` field and
subtracts the `mail` field.  With the purchase id "P1" present (refund 100)
and a name that is not a stored key, it rejects with "not in state" instead
of storing `refund - d`; with the name equal to the stored key "P1" it
replaces the whole entry by NaN (object minus value), not by
`refund - d`. -/
theorem applyDec_keys_by_name_not_purchase :
    applyDec "a" (JSVal.str "Ana Gomez") (JSVal.num (JSNum.int 30)) storeP1 =
      Except.error (ErrMsg.notInState "dec") ∧
    applyDec "a" (JSVal.str "P1") (JSVal.num (JSNum.int 30)) storeP1 =
      Except.ok ([("a", [("P1", JSVal.num JSNum.nan)])], ["a"]) :=
  ⟨rfl, rfl⟩

/-- C4: The "getData" transition does not operate on the purchase id's
entry: `_applyInc` looks up the state object under the `name` field and adds
the `mail` field.  With the purchase id "P1" present (refund 100) and a name
that is not a stored key, it rejects with "not in state" instead of storing
`refund + d`; with the name equal to the stored key "P1", JavaScript `+`
concatenates, and the stored value becomes the string
"[object Object]ana.gomez", not `refund + d`. -/
theorem applyInc_keys_by_name_not_purchase :
    applyInc "a" (JSVal.str "Ana Gomez") (JSVal.str "ana.gomez") storeP1 =
      Except.error (ErrMsg.notInState "inc") ∧
    applyInc "a" (JSVal.str "P1") (JSVal.str "ana.gomez") storeP1 =
      Except.ok ([("a", [("P1", JSVal.str "[object Object]ana.gomez")])], ["a"]) :=
  ⟨rfl, rfl⟩

/-- C7: A "calculate" whose target purchase id ("P2") has no entry at the
derived address is NOT rejected when the payload's `name` field matches a
stored key: the operator keys on `name`, accepts, and overwrites the "P1"
entry with NaN, changing the state — contradicting the claim that the
transaction is rejected and the state unchanged. -/
theorem applyDec_accepts_absent_purchase :
    applyDec "a" (JSVal.str "P1") (JSVal.str "ana.gomez") storeP1 =
      Except.ok ([("a", [("P1", JSVal.num JSNum.nan)])], ["a"]) ∧
    entryP1 ≠ JSVal.num JSNum.nan :=
  ⟨rfl, fun h => nomatch h⟩

/-- C8 (counterexample): a payload whose verb is "unknown" and whose name is
absent is rejected with the name-required error, not the unrecognized-verb
error: verb membership is NOT checked before the remaining field checks. -/
theorem unknownVerb_rejected_with_field_error :
    applyTx [] { Verb := JSVal.str "unknown" } =
      Except.error ErrMsg.nameRequired ∧
    ErrMsg.nameRequired ≠ ErrMsg.unrecognizedVerb (JSVal.str "unknown") :=
  ⟨rfl, fun h => nomatch h⟩

/-- C8 (amended): a payload whose verb is present but not one of "buy",
"calculate", "getData" is always rejected, but the rejection is a field
validation error raised before the verb dispatch: the error is never the
unrecognized-verb error (since the bankAccount check rejects every payload,
the dispatch of source lines 270-279 is unreachable). -/
theorem unknownVerb_never_reaches_dispatch (pav : Store) (u : Update)
    (hv : jsTruthy u.Verb = true)
    (hb : jsStrictEq u.Verb (JSVal.str "buy") = false)
    (hc : jsStrictEq u.Verb (JSVal.str "calculate") = false)
    (hg : jsStrictEq u.Verb (JSVal.str "getData") = false) :
    ∃ e, applyTx pav u = Except.error e ∧
      ∀ v, e ≠ ErrMsg.unrecognizedVerb v := by
  rcases validate_err u with ⟨e, he, hne⟩
  refine ⟨e, ?_, hne⟩
  unfold applyTx
  rw [he]

/-- Witness for the amended C8 theorem at the concrete payload
`{Verb: "unknown"}`. -/
theorem unknownVerb_never_reaches_dispatch_witness :
    (jsTruthy (JSVal.str "unknown") = true ∧
     jsStrictEq (JSVal.str "unknown") (JSVal.str "buy") = false ∧
     jsStrictEq (JSVal.str "unknown") (JSVal.str "calculate") = false ∧
     jsStrictEq (JSVal.str "unknown") (JSVal.str "getData") = false) ∧
    ∃ e, applyTx [] { Verb := JSVal.str "unknown" } = Except.error e ∧
      ∀ v, e ≠ ErrMsg.unrecognizedVerb v :=
  ⟨⟨rfl, rfl, rfl, rfl⟩,
   unknownVerb_never_reaches_dispatch [] { Verb := JSVal.str "unknown" }
     rfl rfl rfl rfl⟩

/-- A "buy" against a state that already holds a truthy entry for the same
purchase id is rejected as already in state. -/
theorem applySet_dup (pav : Store) (address : String)
    (name mail bankAccount placeAddress town province checkinDate
     checkoutDate days rainAmount startHour endHour refund purchase total :
       JSVal)
    (sv : JSObj) (hs : storeGet pav address = some sv)
    (ht : jsTruthy (objGet sv (jsToString purchase)) = true) :
    applySet address name mail bankAccount placeAddress town province
      checkinDate checkoutDate days rainAmount startHour endHour refund
      purchase total pav =
      Except.error (ErrMsg.alreadyInState (jsToString purchase)) := by
  unfold applySet
  cases hs' : storeGet pav address with
  | none => rw [hs] at hs'; cases hs'
  | some sv' =>
      rw [hs] at hs'
      injection hs' with hsv
      subst hsv
      simp [ht]

/-- C5: A "buy" whose purchase id has no (truthy) entry at the derived
address succeeds, inserts an entry equal to the validated input fields (in
particular the stored refund equals the payload refund), and a subsequent
"buy" with the same purchase id against the resulting state is rejected as
already in state. -/
theorem applySet_fresh_insert_then_duplicate_reject (pav : Store)
    (address : String)
    (name mail bankAccount placeAddress town province checkinDate
     checkoutDate days rainAmount startHour endHour refund purchase total
     name2 mail2 bankAccount2 placeAddress2 town2 province2 checkinDate2
     checkoutDate2 days2 rainAmount2 startHour2 endHour2 refund2 total2 :
       JSVal)
    (h : jsTruthy (objGet ((storeGet pav address).getD [])
          (jsToString purchase)) = false) :
    ∃ s, applySet address name mail bankAccount placeAddress town province
        checkinDate checkoutDate days rainAmount startHour endHour refund
        purchase total pav = Except.ok (s, [address]) ∧
      objGet ((storeGet s address).getD []) (jsToString purchase) =
        mkEntry name mail bankAccount placeAddress town province checkinDate
          checkoutDate days rainAmount startHour endHour refund total ∧
      applySet address name2 mail2 bankAccount2 placeAddress2 town2 province2
        checkinDate2 checkoutDate2 days2 rainAmount2 startHour2 endHour2
        refund2 purchase total2 s =
        Except.error (ErrMsg.alreadyInState (jsToString purchase)) := by
  refine ⟨_, applySet_fresh pav address name mail bankAccount placeAddress
    town province checkinDate checkoutDate days rainAmount startHour endHour
    refund purchase total h, ?_, ?_⟩
  · rw [storeGet_storeSet_self]
    simp only [Option.getD_some]
    exact objGet_objSet_self _ _ _
  · refine applySet_dup _ address name2 mail2 bankAccount2 placeAddress2
      town2 province2 checkinDate2 checkoutDate2 days2 rainAmount2 startHour2
      endHour2 refund2 purchase total2 _ (storeGet_storeSet_self _ _ _) ?_
    rw [objGet_objSet_self]
    rfl

/-- Witness for the C5 theorem: a fresh "buy" of purchase id "P1" into the
empty store, followed by a duplicate "buy" of "P1". -/
theorem applySet_fresh_insert_then_duplicate_reject_witness :
    (jsTruthy (objGet ((storeGet [] "a").getD [])
      (jsToString (JSVal.str "P1"))) = false) ∧
    ∃ s, applySet "a" (JSVal.str "Ana") (JSVal.str "m") (JSVal.num (JSNum.int 1))
        (JSVal.str "pa") (JSVal.str "tw") (JSVal.str "pv") (JSVal.str "ci")
        (JSVal.str "co") (JSVal.num (JSNum.int 2)) (JSVal.str "ra")
        (JSVal.str "sh") (JSVal.str "eh") (JSVal.num (JSNum.int 0))
        (JSVal.str "P1") (JSVal.num (JSNum.int 500)) [] =
          Except.ok (s, ["a"]) ∧
      objGet ((storeGet s "a").getD []) (jsToString (JSVal.str "P1")) =
        mkEntry (JSVal.str "Ana") (JSVal.str "m") (JSVal.num (JSNum.int 1))
          (JSVal.str "pa") (JSVal.str "tw") (JSVal.str "pv") (JSVal.str "ci")
          (JSVal.str "co") (JSVal.num (JSNum.int 2)) (JSVal.str "ra")
          (JSVal.str "sh") (JSVal.str "eh") (JSVal.num (JSNum.int 0))
          (JSVal.num (JSNum.int 500)) ∧
      applySet "a" (JSVal.str "Eva") (JSVal.str "n") (JSVal.num (JSNum.int 2))
        (JSVal.str "pb") (JSVal.str "tx") (JSVal.str "pw") (JSVal.str "cj")
        (JSVal.str "cp") (JSVal.num (JSNum.int 3)) (JSVal.str "rb")
        (JSVal.str "si") (JSVal.str "ei") (JSVal.num (JSNum.int 9))
        (JSVal.str "P1") (JSVal.num (JSNum.int 600)) s =
        Except.error (ErrMsg.alreadyInState (jsToString (JSVal.str "P1"))) :=
  ⟨rfl, applySet_fresh_insert_then_duplicate_reject [] "a"
    (JSVal.str "Ana") (JSVal.str "m") (JSVal.num (JSNum.int 1))
    (JSVal.str "pa") (JSVal.str "tw") (JSVal.str "pv") (JSVal.str "ci")
    (JSVal.str "co") (JSVal.num (JSNum.int 2)) (JSVal.str "ra")
    (JSVal.str "sh") (JSVal.str "eh") (JSVal.num (JSNum.int 0))
    (JSVal.str "P1") (JSVal.num (JSNum.int 500))
    (JSVal.str "Eva") (JSVal.str "n") (JSVal.num (JSNum.int 2))
    (JSVal.str "pb") (JSVal.str "tx") (JSVal.str "pw") (JSVal.str "cj")
    (JSVal.str "cp") (JSVal.num (JSNum.int 3)) (JSVal.str "rb")
    (JSVal.str "si") (JSVal.str "ei") (JSVal.num (JSNum.int 9))
    (JSVal.num (JSNum.int 600)) rfl⟩

/-- Any value stored by an accepted operator transition passed both range
comparisons: an accepted `_applyOperator` leaves at the written key a result
for which `result < MIN_VALUE` and `result > MAX_VALUE` are both false. -/
theorem applyOperator_ok_bounds (verb : String)
    (op : JSVal → JSVal → JSVal) (address : String) (name value : JSVal)
    (pav s : Store) (l : List String)
    (hok : applyOperator verb op address name value pav = Except.ok (s, l)) :
    jsLtInt (objGet ((storeGet s address).getD []) (jsToString name))
      MIN_VALUE = false ∧
    jsGtInt (objGet ((storeGet s address).getD []) (jsToString name))
      MAX_VALUE = false := by
  unfold applyOperator at hok
  cases hs : storeGet pav address with
  | none => rw [hs] at hok; cases hok
  | some sv =>
      rw [hs] at hok
      by_cases h1 : isNullOrUndef (objGet sv (jsToString name)) = true
      · simp [h1] at hok
      · by_cases h2 : jsLtInt (op (objGet sv (jsToString name)) value)
            MIN_VALUE = true
        · simp [h1, h2] at hok
        · by_cases h3 : jsGtInt (op (objGet sv (jsToString name)) value)
              MAX_VALUE = true
          · simp [h1, h2, h3] at hok
          · simp [h1, h2, h3] at hok
            obtain ⟨hstore, hl⟩ := hok
            subst hstore
            rw [storeGet_storeSet_self]
            simp only [Option.getD_some]
            rw [objGet_objSet_self]
            exact ⟨Bool.eq_false_iff.mpr h2, Bool.eq_false_iff.mpr h3⟩

/-- C6 (counterexample): a "buy" of purchase id "P9" with refund -1 into the
empty store is accepted and stores refund -1, which violates
`0 ≤ refund`: `_applySet` performs no range check on the refund it
stores. -/
theorem applySet_stores_negative_refund :
    applySet "a" (JSVal.str "Ana") (JSVal.str "m") (JSVal.num (JSNum.int 1))
      (JSVal.str "pa") (JSVal.str "tw") (JSVal.str "pv") (JSVal.str "ci")
      (JSVal.str "co") (JSVal.num (JSNum.int 2)) (JSVal.str "ra")
      (JSVal.str "sh") (JSVal.str "eh") (JSVal.num (JSNum.int (-1)))
      (JSVal.str "P9") (JSVal.num (JSNum.int 5)) [] =
      Except.ok ([("a", [("P9",
        mkEntry (JSVal.str "Ana") (JSVal.str "m") (JSVal.num (JSNum.int 1))
          (JSVal.str "pa") (JSVal.str "tw") (JSVal.str "pv") (JSVal.str "ci")
          (JSVal.str "co") (JSVal.num (JSNum.int 2)) (JSVal.str "ra")
          (JSVal.str "sh") (JSVal.str "eh") (JSVal.num (JSNum.int (-1)))
          (JSVal.num (JSNum.int 5)))])], ["a"]) ∧
    entryRefund (mkEntry (JSVal.str "Ana") (JSVal.str "m")
      (JSVal.num (JSNum.int 1)) (JSVal.str "pa") (JSVal.str "tw")
      (JSVal.str "pv") (JSVal.str "ci") (JSVal.str "co")
      (JSVal.num (JSNum.int 2)) (JSVal.str "ra") (JSVal.str "sh")
      (JSVal.str "eh") (JSVal.num (JSNum.int (-1)))
      (JSVal.num (JSNum.int 5))) = JSVal.num (JSNum.int (-1)) ∧
    jsLtInt (JSVal.num (JSNum.int (-1))) MIN_VALUE = true :=
  ⟨rfl, rfl, rfl⟩

/-- C6 (amended): only the operator transitions (calculate and getData)
enforce the `[MIN_VALUE, MAX_VALUE]` bounds — a result failing either
comparison is rejected before any write, and any value stored by an accepted
operator transition passes both comparisons; "buy" stores the payload refund
with no range check at all, for every refund value. -/
theorem refund_bounds_operator_only :
    (∀ (verb : String) (op : JSVal → JSVal → JSVal) (address : String)
        (name value : JSVal) (pav s : Store) (l : List String),
      applyOperator verb op address name value pav = Except.ok (s, l) →
      jsLtInt (objGet ((storeGet s address).getD []) (jsToString name))
        MIN_VALUE = false ∧
      jsGtInt (objGet ((storeGet s address).getD []) (jsToString name))
        MAX_VALUE = false) ∧
    (∀ (address : String)
        (name mail bankAccount placeAddress town province checkinDate
         checkoutDate days rainAmount startHour endHour refund purchase total :
           JSVal) (pav : Store),
      jsTruthy (objGet ((storeGet pav address).getD [])
        (jsToString purchase)) = false →
      ∃ s, applySet address name mail bankAccount placeAddress town province
          checkinDate checkoutDate days rainAmount startHour endHour refund
          purchase total pav = Except.ok (s, [address]) ∧
        entryRefund (objGet ((storeGet s address).getD [])
          (jsToString purchase)) = refund) := by
  constructor
  · exact applyOperator_ok_bounds
  · intro address name mail bankAccount placeAddress town province
      checkinDate checkoutDate days rainAmount startHour endHour refund
      purchase total pav h
    refine ⟨_, applySet_fresh pav address name mail bankAccount placeAddress
      town province checkinDate checkoutDate days rainAmount startHour
      endHour refund purchase total h, ?_⟩
    rw [storeGet_storeSet_self]
    simp only [Option.getD_some]
    rw [objGet_objSet_self]
    rfl

/-- Witness for the amended C6 theorem: an accepted "dec" of 30 from a
stored value 100 (bounds hold on the stored 70), and a "buy" storing refund
7 unchecked. -/
theorem refund_bounds_operator_only_witness :
    (applyOperator "dec" jsSub "a" (JSVal.str "P1") (JSVal.num (JSNum.int 30))
        [("a", [("P1", JSVal.num (JSNum.int 100))])] =
      Except.ok ([("a", [("P1", JSVal.num (JSNum.int 70))])], ["a"]) ∧
     jsLtInt (objGet ((storeGet [("a", [("P1", JSVal.num (JSNum.int 70))])]
         "a").getD []) (jsToString (JSVal.str "P1"))) MIN_VALUE = false ∧
     jsGtInt (objGet ((storeGet [("a", [("P1", JSVal.num (JSNum.int 70))])]
         "a").getD []) (jsToString (JSVal.str "P1"))) MAX_VALUE = false) ∧
    (jsTruthy (objGet ((storeGet [] "a").getD [])
       (jsToString (JSVal.str "P7"))) = false ∧
     ∃ s, applySet "a" JSVal.und JSVal.und JSVal.und JSVal.und JSVal.und
         JSVal.und JSVal.und JSVal.und JSVal.und JSVal.und JSVal.und
         JSVal.und (JSVal.num (JSNum.int 7)) (JSVal.str "P7") JSVal.und [] =
           Except.ok (s, ["a"]) ∧
       entryRefund (objGet ((storeGet s "a").getD [])
         (jsToString (JSVal.str "P7"))) = JSVal.num (JSNum.int 7)) :=
  ⟨⟨rfl, refund_bounds_operator_only.1 "dec" jsSub "a" (JSVal.str "P1")
      (JSVal.num (JSNum.int 30)) [("a", [("P1", JSVal.num (JSNum.int 100))])]
      [("a", [("P1", JSVal.num (JSNum.int 70))])] ["a"] rfl⟩,
   ⟨rfl, refund_bounds_operator_only.2 "a" JSVal.und JSVal.und JSVal.und
      JSVal.und JSVal.und JSVal.und JSVal.und JSVal.und JSVal.und JSVal.und
      JSVal.und JSVal.und (JSVal.num (JSNum.int 7)) (JSVal.str "P7")
      JSVal.und [] rfl⟩⟩

/-- C10: Address derivation is a deterministic total function of the
purchase id alone: the address is the fixed namespace prefix (the truncated
digest of the family name) concatenated with the 64-character suffix of the
SHA-512 hex digest of the purchase id, it always has exactly 70 characters
(the namespace is 6, the suffix 64), and equal purchase ids yield equal
addresses. -/
theorem deriveAddress_spec (p : String) :
    (deriveAddress p).length = 70 ∧
    deriveAddress p = TP_NAMESPACE ++ sliceLast64 (hashHex p) ∧
    TP_NAMESPACE.length = 6 ∧
    (sliceLast64 (hashHex p)).length = 64 ∧
    ∀ q : String, p = q → deriveAddress p = deriveAddress q := by
  have hlen : (hashHexList p).length = 128 := hashHexList_length p
  have hns : TP_NAMESPACE.length = 6 := by
    show ((hashHexList TP_FAMILY).take 6).length = 6
    rw [List.length_take, hashHexList_length]
    rfl
  have hsl : (sliceLast64 (hashHex p)).length = 64 := by
    show ((hashHex p).data.drop ((hashHex p).data.length - 64)).length = 64
    have hd : (hashHex p).data = hashHexList p := rfl
    rw [hd, List.length_drop, hlen]
  refine ⟨?_, rfl, hns, hsl, fun q hq => by rw [hq]⟩
  show (TP_NAMESPACE ++ sliceLast64 (hashHex p)).length = 70
  rw [String.length_append, hns, hsl]

/-- Witness for the C10 theorem at the concrete purchase id "P1". -/
theorem deriveAddress_spec_witness :
    ("P1" : String) = "P1" ∧ deriveAddress "P1" = deriveAddress "P1" ∧
    (deriveAddress "P1").length = 70 :=
  ⟨rfl, (deriveAddress_spec "P1").2.2.2.2 "P1" rfl, (deriveAddress_spec "P1").1⟩
